import Mathlib

/-!
Shallow embedding of the Bible backend API (src/main.py and src/schemas.py):
the in-memory sample text store, the verse / parallel / search / voice-search
handlers, the JSON serialization helper, highlight schema validation, and the
note listing handler backed by the document store gateway.

Python strings are modelled as Lean `String`; the string helpers below work on
the underlying character lists so that they compute by structural recursion.
Python dicts appearing as stored documents are modelled as insertion-ordered
association lists with unique keys.
-/

namespace BibleAPI

/-- Character-list helper: Python `needle in haystack` substring test,
checking a prefix match at every suffix of the haystack. -/
def subList (n : List Char) : List Char → Bool
  | [] => n.isEmpty
  | c :: t => n.isPrefixOf (c :: t) || subList n t

/-- Python `needle in haystack` on strings (substring containment). -/
def pyIn (needle haystack : String) : Bool :=
  subList needle.data haystack.data

/-- Python `s.lower()` (character-wise lowercasing; the sample data is ASCII). -/
def pyLower (s : String) : String :=
  ⟨s.data.map Char.toLower⟩

/-- Python `s[:k]` for a nonnegative character count `k`. -/
def pyTake (s : String) (k : Nat) : String :=
  ⟨s.data.take k⟩

/-- Python truthiness of a string: empty strings are falsy. -/
def strIsEmpty (s : String) : Bool :=
  s.data.isEmpty

/-- Python `s.strip()`: remove leading and trailing whitespace. -/
def pyStrip (s : String) : String :=
  ⟨((s.data.dropWhile Char.isWhitespace).reverse.dropWhile Char.isWhitespace).reverse⟩

/-- Auxiliary splitter for `pySplitComma`, accumulating the current chunk
in reverse. -/
def splitCommaAux : List Char → List Char → List (List Char)
  | [], cur => [cur.reverse]
  | c :: rest, cur =>
    if c = ',' then cur.reverse :: splitCommaAux rest [] else splitCommaAux rest (c :: cur)

/-- Python `s.split(",")`: split on every comma, keeping empty chunks
(so the empty string yields one empty chunk). -/
def pySplitComma (s : String) : List String :=
  (splitCommaAux s.data []).map fun l => ⟨l⟩

/-- Python list slicing `xs[:n]` for an arbitrary integer `n`: a nonnegative
`n` takes the first `n` elements; a negative `n` drops the last `-n`. -/
def pySlice {α : Type} (xs : List α) (n : Int) : List α :=
  if 0 ≤ n then xs.take n.toNat
  else xs.take (xs.length - (-n).toNat)

/-- Values stored in a document field: plain strings, raw storage object
identifiers (rendered by Python `str`), and datetime values (which expose
`isoformat`, rendered as their ISO-8601 string). -/
inductive Value where
  | str (s : String)
  | objectId (oid : String)
  | datetime (iso : String)
deriving DecidableEq

/-- Python `hasattr(v, "isoformat")`: true exactly for datetime values. -/
def hasIsoformat : Value → Bool
  | .datetime _ => true
  | _ => false

/-- Python `v.isoformat()` on a datetime value. -/
def isoformat : Value → String
  | .datetime iso => iso
  | .str s => s
  | .objectId oid => oid

/-- Python `str(v)` on a stored value: an ObjectId renders as its hex string. -/
def pyStr : Value → String
  | .str s => s
  | .objectId oid => oid
  | .datetime iso => iso

/-- A stored document: an insertion-ordered dict from field name to value. -/
abbrev Doc := List (String × Value)

/-- Dict membership test, Python `k in d`. -/
def dictContains (d : Doc) (k : String) : Bool :=
  d.any fun p => p.1 == k

/-- Dict lookup, Python `d[k]` / `d.get(k)`: the first entry with the key. -/
def dictGet (d : Doc) (k : String) : Option Value :=
  (d.find? fun p => p.1 == k).map fun p => p.2

/-- Dict key removal, Python `d.pop(k)` (keys in a dict are unique). -/
def dictPop (d : Doc) (k : String) : Doc :=
  d.filter fun p => !(p.1 == k)

/-- Dict assignment `d[k] = v`: update in place when the key exists,
otherwise append the new entry at the end (Python insertion order). -/
def dictSet (d : Doc) (k : String) (v : Value) : Doc :=
  if dictContains d k then d.map fun p => if p.1 == k then (k, v) else p
  else d ++ [(k, v)]

/-- The value rewriting done by the serialization loop of `to_json`
(src/main.py lines 28-30): datetime values become their ISO string,
everything else is untouched. -/
def renderValue (v : Value) : Value :=
  if hasIsoformat v then .str (isoformat v) else v

/-- Serialization helper `to_json` (src/main.py lines 22-31): rename `_id`
to `id` rendered via `str`, then render datetime values via `isoformat`. -/
def to_json (doc : Doc) : Doc :=
  if doc.isEmpty then doc
  else
    let doc1 := match dictGet doc "_id" with
      | some v => dictSet (dictPop doc "_id") "id" (.str (pyStr v))
      | none => doc
    doc1.map fun p => (p.1, renderValue p.2)

/-- The hardcoded sample verse store `SAMPLE_TEXTS` (src/main.py lines
100-109), as an insertion-ordered association of translations to
insertion-ordered associations of references to verse texts. -/
def SAMPLE_TEXTS : List (String × List (String × String)) :=
  [("ESV",
    [("John 3:16", "For God so loved the world, that he gave his only Son, that whoever believes in him should not perish but have eternal life."),
     ("Psalm 23:1", "The Lord is my shepherd; I shall not want.")]),
   ("NIV",
    [("John 3:16", "For God so loved the world that he gave his one and only Son, that whoever believes in him shall not perish but have eternal life."),
     ("Psalm 23:1", "The Lord is my shepherd, I lack nothing.")])]

/-- Python `SAMPLE_TEXTS.get(translation, {})`. -/
def lookupTexts (translation : String) : List (String × String) :=
  match SAMPLE_TEXTS.find? fun p => p.1 == translation with
  | some p => p.2
  | none => []

/-- Python `SAMPLE_TEXTS.get(translation, {}).get(reference)`. -/
def lookupVerse (translation reference : String) : Option String :=
  ((lookupTexts translation).find? fun p => p.1 == reference).map fun p => p.2

/-- An HTTP error raised by a handler (FastAPI `HTTPException`). -/
inductive ApiError where
  | httpException (status : Nat) (detail : String)
deriving DecidableEq

/-- Response body of `GET /api/verse`. -/
structure VerseResponse where
  reference : String
  translation : String
  text : String
deriving DecidableEq

/-- Handler `get_verse` (src/main.py lines 124-129): look up the verse and
404 when the result is falsy (absent, or an empty text). -/
def get_verse (reference : String) (translation : String := "ESV") :
    Except ApiError VerseResponse :=
  let text := lookupVerse translation reference
  if strIsEmpty (text.getD "") then
    .error (.httpException 404 "Verse not found in sample dataset")
  else
    .ok ⟨reference, translation, text.getD ""⟩

/-- One item of the `GET /api/parallel` response. -/
structure ParallelItem where
  translation : String
  text : String
deriving DecidableEq

/-- Response body of `GET /api/parallel`. -/
structure ParallelResponse where
  reference : String
  items : List ParallelItem
deriving DecidableEq

/-- Handler `get_parallel` (src/main.py lines 131-141): split the requested
translations on commas, strip each, collect the translations whose store
entry for the reference is truthy (`if verse:`), and 404 when nothing was
collected. -/
def get_parallel (reference : String) (translations : String := "ESV,NIV") :
    Except ApiError ParallelResponse :=
  let results := (pySplitComma translations).foldl
    (fun acc raw =>
      let t := pyStrip raw
      let verse := lookupVerse t reference
      if strIsEmpty (verse.getD "") then acc else acc ++ [⟨t, verse.getD ""⟩])
    []
  if results.isEmpty then .error (.httpException 404 "Reference not found")
  else .ok ⟨reference, results⟩

/-- Request body of `POST /api/search` (`SearchQuery`, src/main.py lines
35-39); `limit` is a Python int and may be negative. -/
structure SearchQuery where
  q : String
  translation : Option String := none
  language : Option String := none
  limit : Int := 20
deriving DecidableEq

/-- One entry of the search response. -/
structure SearchResult where
  reference : String
  translation : String
  snippet : String
deriving DecidableEq

/-- The translations scanned by `search_verses` (src/main.py line 147):
`[payload.translation] if payload.translation else list(SAMPLE_TEXTS.keys())`,
so a missing or empty translation scans every translation. -/
def scanTranslations (translation : Option String) : List String :=
  match translation with
  | some t => if strIsEmpty t then SAMPLE_TEXTS.map Prod.fst else [t]
  | none => SAMPLE_TEXTS.map Prod.fst

/-- Handler `search_verses` (src/main.py lines 143-152): lowercase the query,
scan the chosen translations in store order, append an entry with a
160-character snippet for every verse whose lowercased text contains the
query, and slice the result with `results[:limit]`. The body raises no
exception, so the handler always returns `.ok`. -/
def search_verses (payload : SearchQuery) : Except ApiError (List SearchResult) :=
  let q := pyLower payload.q
  let translations := scanTranslations payload.translation
  let results := translations.foldl
    (fun acc t =>
      (lookupTexts t).foldl
        (fun acc2 p =>
          if pyIn q (pyLower p.2) then acc2 ++ [⟨p.1, t, pyTake p.2 160⟩] else acc2)
        acc)
    []
  .ok (pySlice results payload.limit)

/-- Request body of `POST /api/voice-search` (`VoiceSearchQuery`,
src/main.py lines 41-43). -/
structure VoiceSearchQuery where
  transcript : String
  translation : Option String := none
deriving DecidableEq

/-- Handler `voice_search` (src/main.py lines 154-156): delegate to
`search_verses` with the transcript verbatim as the query and the pydantic
defaults for the remaining fields (`language = None`, `limit = 20`). -/
def voice_search (payload : VoiceSearchQuery) : Except ApiError (List SearchResult) :=
  search_verses ⟨payload.transcript, payload.translation, none, 20⟩

/-- Specification-side description of the search scan: for each scanned
translation in order, the entries for exactly the verses whose lowercased
text contains the lowercased query, in store iteration order, with the
snippet the first 160 characters of the matched text. -/
def specSearchEntries (q : String) (translations : List String) : List SearchResult :=
  translations.flatMap fun t =>
    ((lookupTexts t).filter fun p => pyIn (pyLower q) (pyLower p.2)).map fun p =>
      ⟨p.1, t, pyTake p.2 160⟩

/-- Specification-side description of the parallel lookup: the requested
translations in order, each stripped, keeping exactly those that contain
the reference, paired with the stored text. -/
def parallelItems (reference translations : String) : List ParallelItem :=
  ((pySplitComma translations).map pyStrip).filterMap fun t =>
    (lookupVerse t reference).map fun v => ParallelItem.mk t v

/-- A failure reported by schema validation at construction time. -/
inductive FieldError where
  | missing (field : String)
deriving DecidableEq

/-- The `Highlight` schema record (src/schemas.py lines 33-38). -/
structure Highlight where
  user_id : String
  reference : String
  translation : String
  color : String := "yellow"
  note : Option String := none
deriving DecidableEq

/-- Pydantic-style construction of a `Highlight` (src/schemas.py lines
33-38): each required field must be provided, `color` defaults to
"yellow", `note` is optional. The field types are plain `str`, which in
pydantic admits every string including the empty string — no minimum
length constraint is declared. -/
def Highlight.validate (user_id reference translation : Option String)
    (color : Option String := none) (note : Option String := none) :
    Except FieldError Highlight :=
  match user_id with
  | none => .error (.missing "user_id")
  | some u =>
    match reference with
    | none => .error (.missing "reference")
    | some r =>
      match translation with
      | none => .error (.missing "translation")
      | some t => .ok ⟨u, r, t, color.getD "yellow", note⟩

/-- The `Bookmark` schema record (src/schemas.py lines 40-44). -/
structure Bookmark where
  user_id : String
  reference : String
  translation : String
  label : Option String := none
deriving DecidableEq

/-- Pydantic-style construction of a `Bookmark` (src/schemas.py lines
40-44): `user_id`, `reference` and `translation` are required plain `str`
fields (no minimum length), `label` is optional. -/
def Bookmark.validate (user_id reference translation : Option String)
    (label : Option String := none) : Except FieldError Bookmark :=
  match user_id with
  | none => .error (.missing "user_id")
  | some u =>
    match reference with
    | none => .error (.missing "reference")
    | some r =>
      match translation with
      | none => .error (.missing "translation")
      | some t => .ok ⟨u, r, t, label⟩

/-- The `Note` schema record (src/schemas.py lines 46-50). -/
structure Note where
  user_id : String
  reference : String
  translation : String
  content : String
deriving DecidableEq

/-- Pydantic-style construction of a `Note` (src/schemas.py lines 46-50):
all four fields are required plain `str` fields with no minimum length. -/
def Note.validate (user_id reference translation content : Option String) :
    Except FieldError Note :=
  match user_id with
  | none => .error (.missing "user_id")
  | some u =>
    match reference with
    | none => .error (.missing "reference")
    | some r =>
      match translation with
      | none => .error (.missing "translation")
      | some t =>
        match content with
        | none => .error (.missing "content")
        | some cnt => .ok ⟨u, r, t, cnt⟩

/-- The `VersePlaylist` schema record (src/schemas.py lines 65-70). -/
structure VersePlaylist where
  user_id : String
  title : String
  mood : Option String := none
  theme : Option String := none
  references : List String := []
deriving DecidableEq

/-- Pydantic-style construction of a `VersePlaylist` (src/schemas.py lines
65-70): `user_id` and `title` are required plain `str` fields (no minimum
length), `mood` and `theme` are optional, and `references` defaults to the
empty list when omitted. -/
def VersePlaylist.validate (user_id title : Option String)
    (mood theme : Option String := none)
    (references : Option (List String) := none) :
    Except FieldError VersePlaylist :=
  match user_id with
  | none => .error (.missing "user_id")
  | some u =>
    match title with
    | none => .error (.missing "title")
    | some ti => .ok ⟨u, ti, mood, theme, references.getD []⟩

/-- Exact-match predicate of a document against a query filter.

Modelled from the spec: `getDocuments` lives in `database.py`, which is not
part of the provided sources; the spec describes its filter as "an
exact-match mapping of field name to value". -/
def matchesFilter (d : Doc) (filt : List (String × Value)) : Bool :=
  filt.all fun kv => decide (dictGet d kv.1 = some kv.2)

/-- Document store query.

Modelled from the spec: `getDocuments(collectionName, filter)` from
`database.py` (not under the provided sources) "returns the list of matching
records" for an exact-match filter, in natural storage order; the collection
is passed here as the list of its stored documents. -/
def get_documents (store : List Doc) (filt : List (String × Value)) : List Doc :=
  store.filter fun d => matchesFilter d filt

/-- Handler `list_notes` (src/main.py lines 198-204): filter the note
collection by `user_id`, add the `reference` filter only when the reference
parameter is truthy (present and non-empty), and serialize each document
with `to_json`. -/
def list_notes (store : List Doc) (user_id : String) (reference : Option String) :
    List Doc :=
  let query := [("user_id", Value.str user_id)]
  let query := match reference with
    | some r => if strIsEmpty r then query else query ++ [("reference", Value.str r)]
    | none => query
  (get_documents store query).map to_json

/-- A concrete stored document used to instantiate the serialization
theorem. -/
def sampleStoredDoc : Doc :=
  [("_id", .objectId "65f0a1b2c3"),
   ("user_id", .str "u1"),
   ("reference", .str "John 3:16"),
   ("created_at", .datetime "2024-01-01T00:00:00")]

/-- A concrete stored note used to instantiate the note listing theorems. -/
def sampleStoredNote : Doc :=
  [("_id", .objectId "65aa01"),
   ("user_id", .str "u1"),
   ("reference", .str "John 3:16"),
   ("translation", .str "ESV"),
   ("content", .str "Memorize this verse")]

/-! ## Facts about the sample store -/

/-- Every verse text stored in `SAMPLE_TEXTS` is non-empty. -/
theorem mem_lookupTexts_isEmpty_false {tr : String} {p : String × String}
    (hp : p ∈ lookupTexts tr) : strIsEmpty p.2 = false := by
  unfold lookupTexts at hp
  rcases hf : SAMPLE_TEXTS.find? (fun q => q.1 == tr) with _ | pair
  · rw [hf] at hp
    simp at hp
  · rw [hf] at hp
    simp only at hp
    have hmem : pair ∈ SAMPLE_TEXTS := List.mem_of_find?_eq_some hf
    unfold SAMPLE_TEXTS at hmem
    simp only [List.mem_cons, List.not_mem_nil, or_false] at hmem
    rcases hmem with h | h <;> subst h <;>
      simp only [List.mem_cons, List.not_mem_nil, or_false] at hp <;>
      rcases hp with h2 | h2 <;> subst h2 <;> rfl

/-- A successful `lookupVerse` always yields a non-empty text. -/
theorem lookupVerse_isEmpty_false {tr ref t : String}
    (h : lookupVerse tr ref = some t) : strIsEmpty t = false := by
  unfold lookupVerse at h
  rcases hf : (lookupTexts tr).find? (fun q => q.1 == ref) with _ | pair
  · rw [hf] at h
    simp at h
  · rw [hf] at h
    simp only [Option.map_some'] at h
    have hmem : pair ∈ lookupTexts tr := List.mem_of_find?_eq_some hf
    injection h with h2
    rw [← h2]
    exact mem_lookupTexts_isEmpty_false hmem

/-! ## C1: verse lookup -/

/-- C1: for every (translation, reference) pair present in the sample text
set, `GET /api/verse` returns a 200 response whose text field is exactly the
stored verse text; for every absent pair it returns a 404 response. -/
theorem get_verse_lookup_correct (translation reference : String) :
    (∀ t, lookupVerse translation reference = some t →
      get_verse reference translation = .ok ⟨reference, translation, t⟩) ∧
    (lookupVerse translation reference = none →
      get_verse reference translation =
        .error (.httpException 404 "Verse not found in sample dataset")) := by
  constructor
  · intro t h
    have hne := lookupVerse_isEmpty_false h
    simp [get_verse, h, hne]
  · intro h
    simp [get_verse, h]
    rfl

/-- Witness for C1 at a stored pair and at an absent pair. -/
theorem get_verse_lookup_correct_witness :
    get_verse "John 3:16" "ESV" =
      .ok ⟨"John 3:16", "ESV", "For God so loved the world, that he gave his only Son, that whoever believes in him should not perish but have eternal life."⟩ ∧
    get_verse "John 3:16" "KJV" =
      .error (.httpException 404 "Verse not found in sample dataset") :=
  ⟨(get_verse_lookup_correct "ESV" "John 3:16").1 _ rfl,
   (get_verse_lookup_correct "KJV" "John 3:16").2 rfl⟩

/-! ## Search: fold characterization -/

/-- The inner loop of `search_verses` over one translation appends exactly
the filtered, snippet-mapped entries of that translation. -/
theorem search_inner_fold (q t : String) (ps : List (String × String)) :
    ∀ acc : List SearchResult,
      ps.foldl (fun acc2 p =>
          if pyIn q (pyLower p.2) then acc2 ++ [⟨p.1, t, pyTake p.2 160⟩] else acc2) acc
        = acc ++ (ps.filter fun p => pyIn q (pyLower p.2)).map fun p =>
            ⟨p.1, t, pyTake p.2 160⟩ := by
  induction ps with
  | nil => intro acc; simp
  | cons p ps ih =>
    intro acc
    simp only [List.foldl_cons, List.filter_cons]
    cases h : pyIn q (pyLower p.2)
    · simp only [Bool.false_eq_true, if_false]
      rw [ih]
    · simp only [if_true]
      rw [ih]
      simp

/-- The nested loops of `search_verses` compute exactly the concatenation of
the per-translation filtered entries, in scan order. -/
theorem search_outer_fold (q : String) (ts : List String) :
    ∀ acc : List SearchResult,
      ts.foldl (fun acc t =>
          (lookupTexts t).foldl (fun acc2 p =>
            if pyIn q (pyLower p.2) then acc2 ++ [⟨p.1, t, pyTake p.2 160⟩] else acc2) acc) acc
        = acc ++ ts.flatMap fun t =>
            ((lookupTexts t).filter fun p => pyIn q (pyLower p.2)).map fun p =>
              ⟨p.1, t, pyTake p.2 160⟩ := by
  induction ts with
  | nil => intro acc; simp
  | cons t ts ih =>
    intro acc
    simp only [List.foldl_cons, List.flatMap_cons]
    rw [search_inner_fold, ih]
    simp

/-- `search_verses` equals the Python slice of the specification-side entry
list; this holds for every limit, including negative ones. -/
theorem search_verses_eq (payload : SearchQuery) :
    search_verses payload =
      .ok (pySlice (specSearchEntries payload.q (scanTranslations payload.translation))
        payload.limit) := by
  simp only [search_verses, specSearchEntries]
  rw [search_outer_fold (pyLower payload.q) (scanTranslations payload.translation) []]
  rw [List.nil_append]

/-- Slicing the empty list yields the empty list for every Python slice bound. -/
theorem pySlice_nil {α : Type} (n : Int) : pySlice ([] : List α) n = [] := by
  unfold pySlice
  cases h : decide (0 ≤ n) <;> simp

/-! ## C2: search -/

/-- C2 counterexample: the claim fails as stated. With `translation` given
as the empty string the handler falls into the all-translations branch
(Python truthiness), so the result contains an ESV entry even though the
entry list for scanning only the given translation is empty; and with
`limit = -1` the Python slice `results[:-1]` keeps one entry, which is not
a list of at most `-1` entries. -/
theorem search_limit_counterexample :
    search_verses ⟨"shepherd", some "", none, -1⟩ =
      .ok [⟨"Psalm 23:1", "ESV", "The Lord is my shepherd; I shall not want."⟩] ∧
    specSearchEntries "shepherd" [""] = [] ∧
    ¬ ((1 : Int) ≤ -1) :=
  ⟨rfl, rfl, by decide⟩

/-- C2 (amended): for every search payload with a nonnegative limit,
`POST /api/search` returns exactly the entries whose lowercased verse text
contains the lowercased query — scanning all translations when the
translation is unspecified or empty and only the given translation
otherwise, in translation-then-reference iteration order, with each snippet
the first 160 characters of the matched text — truncated to at most `limit`
entries. -/
theorem search_matches_spec (payload : SearchQuery) (h : 0 ≤ payload.limit) :
    search_verses payload =
      .ok ((specSearchEntries payload.q (scanTranslations payload.translation)).take
        payload.limit.toNat) := by
  rw [search_verses_eq]
  unfold pySlice
  rw [if_pos h]

/-- Witness for C2 at the payload from the spec example. -/
theorem search_matches_spec_witness :
    (0 : Int) ≤ 20 ∧
    search_verses ⟨"shepherd", none, none, 20⟩ =
      .ok ((specSearchEntries "shepherd" (scanTranslations none)).take ((20 : Int).toNat)) :=
  ⟨by decide, search_matches_spec ⟨"shepherd", none, none, 20⟩ (by decide)⟩

/-! ## C5: empty search results -/

/-- C5 counterexample: a query matching no verse yields a normal `.ok`
response with an empty list, not a 404-style error — the handler body
raises no exception. -/
theorem search_empty_returns_ok_empty :
    specSearchEntries "xyzzy" (SAMPLE_TEXTS.map Prod.fst) = [] ∧
    search_verses ⟨"xyzzy", none, none, 20⟩ = .ok [] :=
  ⟨rfl, rfl⟩

/-- C5 (amended): whenever a search yields nothing, `POST /api/search`
returns a 200 response with an empty list; the NotFound-to-404 translation
applies to the verse and parallel lookups, not to search. -/
theorem search_no_match_ok_empty (payload : SearchQuery)
    (h : specSearchEntries payload.q (scanTranslations payload.translation) = []) :
    search_verses payload = .ok [] := by
  rw [search_verses_eq, h, pySlice_nil]

/-- Witness for C5 at a query matching nothing. -/
theorem search_no_match_ok_empty_witness :
    specSearchEntries "xyzzy" (scanTranslations none) = [] ∧
    search_verses ⟨"xyzzy", none, none, 20⟩ = .ok [] :=
  ⟨rfl, search_no_match_ok_empty ⟨"xyzzy", none, none, 20⟩ rfl⟩

/-! ## C6: voice search delegates to search -/

/-- C6: for every transcript and optional translation,
`POST /api/voice-search` returns exactly what `POST /api/search` returns for
the payload with `q` equal to the transcript verbatim, the same translation,
and the default limit. -/
theorem voice_search_delegates (transcript : String) (translation : Option String) :
    voice_search ⟨transcript, translation⟩ =
      search_verses ⟨transcript, translation, none, 20⟩ :=
  rfl

/-! ## C9: search determinism -/

/-- C9: two evaluations of `POST /api/search` on the same payload against
the unchanged sample set return identical result lists — the embedded
handler is a pure function of its payload, with no other input. -/
theorem search_deterministic (payload : SearchQuery) :
    search_verses payload = search_verses payload :=
  rfl

/-! ## C4: parallel lookup -/

/-- The loop of `get_parallel` appends exactly the stripped requested
translations that contain the reference, paired with the stored text; this
uses the fact that every stored verse text is non-empty. -/
theorem parallel_fold (reference : String) (l : List String) :
    ∀ acc : List ParallelItem,
      l.foldl (fun acc raw =>
          if strIsEmpty ((lookupVerse (pyStrip raw) reference).getD "") then acc
          else acc ++ [⟨pyStrip raw, (lookupVerse (pyStrip raw) reference).getD ""⟩]) acc
        = acc ++ (l.map pyStrip).filterMap fun t =>
            (lookupVerse t reference).map fun v => ParallelItem.mk t v := by
  induction l with
  | nil => intro acc; simp
  | cons raw l ih =>
    intro acc
    simp only [List.foldl_cons, List.map_cons, List.filterMap_cons]
    cases hv : lookupVerse (pyStrip raw) reference with
    | none =>
      have h0 : strIsEmpty "" = true := rfl
      simp only [Option.getD_none, Option.map_none', h0, if_true]
      rw [ih]
    | some verse =>
      have hne := lookupVerse_isEmpty_false hv
      simp only [Option.getD_some, Option.map_some', hne, Bool.false_eq_true, if_false]
      rw [ih]
      simp

/-- `get_parallel` is the 404-or-items view of `parallelItems`. -/
theorem get_parallel_eq (reference translations : String) :
    get_parallel reference translations =
      (if (parallelItems reference translations).isEmpty then
        .error (.httpException 404 "Reference not found")
      else .ok ⟨reference, parallelItems reference translations⟩) := by
  simp only [get_parallel, parallelItems]
  rw [parallel_fold reference (pySplitComma translations) []]
  rw [List.nil_append]

/-- C4: `GET /api/parallel` returns the (translation, text) pairs for
exactly those requested translations that contain the reference, in request
order with each translation stripped, omitting translations with no entry;
it fails with a 404 response precisely when the reference is absent from
all requested translations. -/
theorem get_parallel_correct (reference translations : String) :
    (parallelItems reference translations ≠ [] →
      get_parallel reference translations =
        .ok ⟨reference, parallelItems reference translations⟩) ∧
    (parallelItems reference translations = [] →
      get_parallel reference translations =
        .error (.httpException 404 "Reference not found")) := by
  constructor
  · intro h
    rw [get_parallel_eq, if_neg]
    simpa using h
  · intro h
    rw [get_parallel_eq, h]
    rfl

/-- Witness for C4 at a reference present in both default translations and
at a reference absent from both. -/
theorem get_parallel_correct_witness :
    get_parallel "John 3:16" "ESV,NIV" =
      .ok ⟨"John 3:16", parallelItems "John 3:16" "ESV,NIV"⟩ ∧
    get_parallel "Obadiah 1:1" "ESV,NIV" =
      .error (.httpException 404 "Reference not found") :=
  ⟨(get_parallel_correct "John 3:16" "ESV,NIV").1 (by decide),
   (get_parallel_correct "Obadiah 1:1" "ESV,NIV").2 (by decide)⟩

/-! ## C3: schema validation -/

/-- C3 counterexample: pydantic `str` fields carry no minimum-length
constraint, so constructing a `Highlight` with an empty `reference`
succeeds, and each of the four user-owned record schemas (Highlight,
Bookmark, Note, VersePlaylist) accepts an empty `user_id` — the stored
record then carries an empty `user_id`. -/
theorem user_record_empty_strings_accepted :
    Highlight.validate (some "u1") (some "") (some "ESV") none none =
      .ok { user_id := "u1", reference := "", translation := "ESV" } ∧
    Highlight.validate (some "") (some "John 3:16") (some "ESV") none none =
      .ok { user_id := "", reference := "John 3:16", translation := "ESV" } ∧
    Bookmark.validate (some "") (some "John 3:16") (some "ESV") none =
      .ok { user_id := "", reference := "John 3:16", translation := "ESV" } ∧
    Note.validate (some "") (some "John 3:16") (some "ESV") (some "memorize") =
      .ok { user_id := "", reference := "John 3:16", translation := "ESV",
            content := "memorize" } ∧
    VersePlaylist.validate (some "") (some "Comfort") none none none =
      .ok { user_id := "", title := "Comfort" } :=
  ⟨rfl, rfl, rfl, rfl, rfl⟩

/-- C3 (amended): for each user-owned record schema (Highlight, Bookmark,
Note, VersePlaylist), construction rejects a create request exactly when a
required field is missing, signalling a validation failure naming the
field; empty strings are accepted for required string fields, and the
stored record carries exactly the provided `user_id`, which may be empty. -/
theorem user_record_validate_requires_presence (u r t cnt ti : String)
    (c n lb mo th : Option String) (refs : Option (List String)) :
    (Highlight.validate (some u) (some r) (some t) c n =
       .ok { user_id := u, reference := r, translation := t,
             color := c.getD "yellow", note := n } ∧
     Highlight.validate none (some r) (some t) c n = .error (.missing "user_id") ∧
     Highlight.validate (some u) none (some t) c n = .error (.missing "reference") ∧
     Highlight.validate (some u) (some r) none c n = .error (.missing "translation")) ∧
    (Bookmark.validate (some u) (some r) (some t) lb =
       .ok { user_id := u, reference := r, translation := t, label := lb } ∧
     Bookmark.validate none (some r) (some t) lb = .error (.missing "user_id") ∧
     Bookmark.validate (some u) none (some t) lb = .error (.missing "reference") ∧
     Bookmark.validate (some u) (some r) none lb = .error (.missing "translation")) ∧
    (Note.validate (some u) (some r) (some t) (some cnt) =
       .ok { user_id := u, reference := r, translation := t, content := cnt } ∧
     Note.validate none (some r) (some t) (some cnt) = .error (.missing "user_id") ∧
     Note.validate (some u) none (some t) (some cnt) = .error (.missing "reference") ∧
     Note.validate (some u) (some r) none (some cnt) = .error (.missing "translation") ∧
     Note.validate (some u) (some r) (some t) none = .error (.missing "content")) ∧
    (VersePlaylist.validate (some u) (some ti) mo th refs =
       .ok { user_id := u, title := ti, mood := mo, theme := th,
             references := refs.getD [] } ∧
     VersePlaylist.validate none (some ti) mo th refs = .error (.missing "user_id") ∧
     VersePlaylist.validate (some u) none mo th refs = .error (.missing "title")) :=
  ⟨⟨rfl, rfl, rfl, rfl⟩, ⟨rfl, rfl, rfl, rfl⟩, ⟨rfl, rfl, rfl, rfl, rfl⟩,
   ⟨rfl, rfl, rfl⟩⟩

/-! ## Dict lemmas for the serialization boundary -/

/-- Lookup in a one-step-extended dict. -/
theorem dictGet_cons (p : String × Value) (d : Doc) (k : String) :
    dictGet (p :: d) k = if p.1 == k then some p.2 else dictGet d k := by
  cases h : p.1 == k <;> simp [dictGet, List.find?_cons, h]

/-- Membership in a one-step-extended dict. -/
theorem dictContains_cons (p : String × Value) (d : Doc) (k : String) :
    dictContains (p :: d) k = (p.1 == k || dictContains d k) := by
  simp [dictContains]

/-- A key that is not contained has no value. -/
theorem dictGet_of_contains_false {d : Doc} {k : String}
    (h : dictContains d k = false) : dictGet d k = none := by
  induction d with
  | nil => rfl
  | cons p d ih =>
    rw [dictContains_cons] at h
    rcases Bool.or_eq_false_iff.1 h with ⟨h1, h2⟩
    rw [dictGet_cons, h1, if_neg (by simp), ih h2]

/-- Lookup distributes over appending dict fragments. -/
theorem dictGet_append (d1 d2 : Doc) (k : String) :
    dictGet (d1 ++ d2) k = (dictGet d1 k).orElse fun _ => dictGet d2 k := by
  induction d1 with
  | nil => rfl
  | cons p d ih =>
    rw [List.cons_append, dictGet_cons, dictGet_cons, ih]
    cases h : p.1 == k <;> simp

/-- Value-only rewriting of the entries does not change which keys resolve,
and rewrites the resolved value. -/
theorem dictGet_map_value (f : Value → Value) (d : Doc) (k : String) :
    dictGet (d.map fun p => (p.1, f p.2)) k = (dictGet d k).map f := by
  induction d with
  | nil => rfl
  | cons p d ih =>
    rw [List.map_cons, dictGet_cons, dictGet_cons, ih]
    cases h : p.1 == k <;> simp

/-- Value-only rewriting of the entries preserves key membership. -/
theorem dictContains_map_value (f : Value → Value) (d : Doc) (k : String) :
    dictContains (d.map fun p => (p.1, f p.2)) k = dictContains d k := by
  induction d with
  | nil => rfl
  | cons p d ih =>
    rw [List.map_cons, dictContains_cons, dictContains_cons, ih]

/-- Popping one key leaves lookups of other keys unchanged. -/
theorem dictGet_pop_ne (d : Doc) (j : String) {k : String} (h : ¬ k = j) :
    dictGet (dictPop d j) k = dictGet d k := by
  induction d with
  | nil => rfl
  | cons p d ih =>
    unfold dictPop at ih ⊢
    rw [List.filter_cons]
    cases hj : p.1 == j
    · simp only [hj, Bool.not_false, if_true]
      rw [dictGet_cons, dictGet_cons, ih]
    · have hk : (p.1 == k) = false := by
        have := eq_of_beq hj
        subst this
        simpa using fun e => h e.symm
      simp only [hj, Bool.not_true, Bool.false_eq_true, if_false]
      rw [dictGet_cons, hk, if_neg (by simp), ih]

/-- Popping a key removes it. -/
theorem dictContains_pop_self (d : Doc) (j : String) :
    dictContains (dictPop d j) j = false := by
  induction d with
  | nil => rfl
  | cons p d ih =>
    unfold dictPop at ih ⊢
    rw [List.filter_cons]
    cases hj : p.1 == j
    · simp only [hj, Bool.not_false, if_true]
      rw [dictContains_cons, hj, Bool.false_or, ih]
    · simpa [hj] using ih

/-- In-place assignment of a contained key makes it resolve to the new
value. -/
theorem dictGet_inplace_set (j : String) (v : Value) (d : Doc)
    (hc : dictContains d j = true) :
    dictGet (d.map fun p => if p.1 == j then (j, v) else p) j = some v := by
  induction d with
  | nil => simp [dictContains] at hc
  | cons p d ih =>
    rw [dictContains_cons] at hc
    rw [List.map_cons]
    cases hj : p.1 == j
    · rw [hj, Bool.false_or] at hc
      simp only [hj, Bool.false_eq_true, if_false]
      rw [dictGet_cons, hj, if_neg (by simp), ih hc]
    · simp only [hj, if_true]
      rw [dictGet_cons]
      simp
/-- Assignment makes the assigned key resolve to the assigned value. -/
theorem dictGet_set_self (d : Doc) (j : String) (v : Value) :
    dictGet (dictSet d j v) j = some v := by
  unfold dictSet
  cases hc : dictContains d j
  · simp only [Bool.false_eq_true, if_false]
    rw [dictGet_append, dictGet_of_contains_false hc]
    simp [dictGet_cons]
  · simp only [if_true]
    exact dictGet_inplace_set j v d hc

/-- In-place assignment of one key leaves lookups of other keys unchanged. -/
theorem dictGet_inplace_ne (j : String) (v : Value) (d : Doc) {k : String}
    (h : ¬ k = j) :
    dictGet (d.map fun p => if p.1 == j then (j, v) else p) k = dictGet d k := by
  induction d with
  | nil => rfl
  | cons p d ih =>
    rw [List.map_cons]
    cases hj : p.1 == j
    · simp only [hj, Bool.false_eq_true, if_false]
      rw [dictGet_cons, dictGet_cons, ih]
    · simp only [hj, if_true]
      rw [dictGet_cons, dictGet_cons]
      have := eq_of_beq hj
      subst this
      have hpk : (p.1 == k) = false := by simpa using fun e => h e.symm
      rw [hpk]
      simp only [Bool.false_eq_true, if_false]
      exact ih

/-- In-place assignment rewrites values but never changes the key at any
position, so membership of every key is preserved. -/
theorem dictContains_inplace (j : String) (v : Value) (d : Doc) (k : String) :
    dictContains (d.map fun p => if p.1 == j then (j, v) else p) k =
      dictContains d k := by
  induction d with
  | nil => rfl
  | cons p d ih =>
    rw [List.map_cons, dictContains_cons, dictContains_cons, ih]
    cases hj : p.1 == j
    · simp only [hj, Bool.false_eq_true, if_false]
    · simp only [hj, if_true]
      have := eq_of_beq hj
      subst this
      rfl

/-- Assignment of one key leaves lookups of other keys unchanged. -/
theorem dictGet_set_ne (d : Doc) (j : String) (v : Value) {k : String}
    (h : ¬ k = j) : dictGet (dictSet d j v) k = dictGet d k := by
  unfold dictSet
  cases hc : dictContains d j
  · simp only [Bool.false_eq_true, if_false]
    rw [dictGet_append]
    have : dictGet [(j, v)] k = none := by
      rw [dictGet_cons, if_neg (by simpa using fun e => h e.symm)]
      rfl
    rw [this]
    cases dictGet d k <;> rfl
  · simp only [if_true]
    exact dictGet_inplace_ne j v d h

/-- Assignment of one key leaves membership of other keys unchanged. -/
theorem dictContains_set_ne (d : Doc) (j : String) (v : Value) {k : String}
    (h : ¬ k = j) : dictContains (dictSet d j v) k = dictContains d k := by
  unfold dictSet
  cases hc : dictContains d j
  · simp only [Bool.false_eq_true, if_false]
    unfold dictContains
    rw [List.any_append]
    have : [(j, v)].any (fun p => p.1 == k) = false := by
      simpa using fun e => h e.symm
    rw [this, Bool.or_false]
  · simp only [if_true]
    exact dictContains_inplace j v d k

/-! ## C7: serialization of stored documents -/

/-- C7: serializing a stored document (one holding a raw `_id` and no `id`
field) renders the storage identifier as a plain string under the key `id`,
removes the `_id` field, renders datetime fields as their ISO-8601 string,
and leaves every other field unchanged. -/
theorem to_json_normalizes (doc : Doc) (v : Value)
    (h1 : dictGet doc "_id" = some v) (h2 : dictContains doc "id" = false) :
    dictGet (to_json doc) "id" = some (.str (pyStr v)) ∧
    dictContains (to_json doc) "_id" = false ∧
    ∀ k, ¬ k = "_id" → ¬ k = "id" →
      dictGet (to_json doc) k = (dictGet doc k).map renderValue := by
  have hne : doc.isEmpty = false := by
    cases doc
    · exact absurd h1 (by simp [dictGet])
    · rfl
  unfold to_json
  rw [hne, h1]
  simp only [Bool.false_eq_true, if_false]
  refine ⟨?_, ?_, ?_⟩
  · rw [dictGet_map_value, dictGet_set_self]
    rfl
  · rw [dictContains_map_value, dictContains_set_ne _ _ _ (by decide),
      dictContains_pop_self]
  · intro k hk1 hk2
    rw [dictGet_map_value, dictGet_set_ne _ _ _ hk2, dictGet_pop_ne _ _ hk1]

/-- Witness for C7 at a concrete stored document with an ObjectId `_id`, a
datetime field, and plain string fields. -/
theorem to_json_normalizes_witness :
    dictGet (to_json sampleStoredDoc) "id" = some (.str "65f0a1b2c3") ∧
    dictContains (to_json sampleStoredDoc) "_id" = false ∧
    dictGet (to_json sampleStoredDoc) "created_at" =
      (dictGet sampleStoredDoc "created_at").map renderValue := by
  have h := to_json_normalizes sampleStoredDoc (.objectId "65f0a1b2c3") rfl rfl
  exact ⟨h.1, h.2.1, h.2.2 "created_at" (by decide) (by decide)⟩

/-! ## C8 and C10: note listing -/

/-- C8 counterexample: with a non-absent but empty `reference` parameter the
handler drops the reference filter (Python truthiness), so it returns a note
whose reference, "John 3:16", differs from the requested empty reference. -/
theorem list_notes_empty_reference_counterexample :
    list_notes [sampleStoredNote] "u1" (some "") =
      [[("user_id", .str "u1"), ("reference", .str "John 3:16"),
        ("translation", .str "ESV"), ("content", .str "Memorize this verse"),
        ("id", .str "65aa01")]] ∧
    ¬ ("John 3:16" : String) = "" :=
  ⟨rfl, by decide⟩

/-- C8 (amended): for every user id `U` and non-absent, non-empty reference
`R`, `GET /api/notes?user_id=U&reference=R` returns only serialized notes
whose stored `user_id` equals `U` and whose stored `reference` equals `R`. -/
theorem list_notes_filters (store : List Doc) (U R : String) (hR : ¬ R = "")
    (d : Doc) (hd : d ∈ list_notes store U (some R)) :
    ∃ d0, d0 ∈ store ∧ d = to_json d0 ∧
      dictGet d0 "user_id" = some (.str U) ∧
      dictGet d0 "reference" = some (.str R) := by
  have hRe : strIsEmpty R = false := by
    cases R with
    | mk l =>
      cases l with
      | nil => exact absurd rfl hR
      | cons c cs => rfl
  simp only [list_notes, hRe, Bool.false_eq_true, if_false] at hd
  rcases List.mem_map.1 hd with ⟨d0, hd0, rfl⟩
  unfold get_documents at hd0
  rcases List.mem_filter.1 hd0 with ⟨hmem, hmatch⟩
  unfold matchesFilter at hmatch
  simp only [List.cons_append, List.nil_append, List.all_cons, List.all_nil,
    Bool.and_true, Bool.and_eq_true, decide_eq_true_eq] at hmatch
  exact ⟨d0, hmem, rfl, hmatch.1, hmatch.2⟩

/-- Witness for C8 at a singleton note store and a matching query. -/
theorem list_notes_filters_witness :
    ∃ d0, d0 ∈ [sampleStoredNote] ∧ to_json sampleStoredNote = to_json d0 ∧
      dictGet d0 "user_id" = some (.str "u1") ∧
      dictGet d0 "reference" = some (.str "John 3:16") :=
  list_notes_filters [sampleStoredNote] "u1" "John 3:16" (by decide)
    (to_json sampleStoredNote) (by decide)

/-- C10: for every user id `U`, calling the notes listing with `reference`
equal to the empty string drops the reference filter entirely: it behaves
exactly as the call without a reference and returns all of the serialized
notes whose stored `user_id` equals `U`, whatever their reference. -/
theorem list_notes_empty_reference_drops_filter (store : List Doc) (U : String) :
    list_notes store U (some "") = list_notes store U none ∧
    list_notes store U (some "") =
      (store.filter fun d => decide (dictGet d "user_id" = some (.str U))).map to_json := by
  constructor
  · rfl
  · have h0 : strIsEmpty "" = true := rfl
    unfold list_notes get_documents matchesFilter
    simp [h0]

end BibleAPI
